import Mathlib

/-!
Shallow embedding of the probabilistic-input core of `uqtestfuns`:
the files `core/prob_input/utils.py` and
`core/prob_input/univariate_distribution.py`.

Numeric values are modelled by `ℚ`; Python exceptions by an explicit
error type threaded through `Except`.  The CPython calling convention
matters here: `univariate_distribution.py` calls the three-parameter
utility functions `get_pdf_values`, `get_cdf_values` and
`get_icdf_values` with five positional arguments, which CPython rejects
with a `TypeError` before the callee body runs; the call boundary is
therefore modelled explicitly (`pyCallVals` below).
-/

set_option autoImplicit false

namespace UQTestFuns

/-- The Python exceptions raised by the embedded code, named after the
spec's error taxonomy where it gives a name.  `unsupportedDistribution`
and `invalidParameters` are `ValueError`s in the source;
`typeMismatch` is the `TypeError` raised by the `isinstance` guard of
`transform_sample`; `typeErrorArity f expected given` is the
`TypeError` CPython raises when a function of `expected` positional
parameters is called with `given` arguments; `unboundLocal` is the
`UnboundLocalError` of `get_distribution_module` when no branch binds
`distribution_module`; `valueErrorAmbiguous` is the `ValueError`
raised by `bool()` of a multi-element NumPy comparison array;
`unhashableType` is the `TypeError` raised when hashing an unhashable
object. -/
inductive PyErr where
  | unsupportedDistribution (name : String)
  | invalidParameters (msg : String)
  | typeMismatch
  | typeErrorArity (fname : String) (expected given : Nat)
  | unboundLocal (name : String)
  | badArgument
  | valueErrorAmbiguous
  | unhashableType (name : String)
deriving Repr, DecidableEq

/-- Python values crossing the function-call boundary and appearing in
the dataclass field tuple: `None`, a float, a string, a NumPy array of
floats, or a NumPy `Generator` object (identified by an identity tag,
since `Generator` defines no structural equality). -/
inductive PyVal where
  | pyNone
  | num (x : ℚ)
  | str (s : String)
  | arr (xs : List ℚ)
  | rngObj (tag : Nat)
deriving Repr, DecidableEq

namespace uniform

/-- Modelled from the spec: the per-family module
`univariate_distributions/uniform.py` is imported by `utils.py` but its
file is not among the sources.  Per the spec the registry exposes
`bounds(params) -> (lower, upper)`; for the uniform family the bounds
are the two parameters themselves (the end-to-end scenario gives
`parameters=[0,1]` with `bounds == (0,1)`). -/
def lower (parameters : List ℚ) : ℚ := parameters.getD 0 0

/-- Modelled from the spec: upper bound of the uniform family, the
second parameter. -/
def upper (parameters : List ℚ) : ℚ := parameters.getD 1 0

/-- Modelled from the spec: `validate_parameters` of the uniform
family.  It fails with `InvalidParameters` on wrong arity (the uniform
family takes exactly two parameters) or infeasible ordering
(lower ≥ upper), and never clamps. -/
def verify_parameters (parameters : List ℚ) : Except PyErr Unit :=
  if parameters.length ≠ 2 then
    Except.error (PyErr.invalidParameters "uniform takes exactly 2 parameters")
  else if upper parameters ≤ lower parameters then
    Except.error (PyErr.invalidParameters "lower bound must be below upper bound")
  else
    Except.ok ()

/-- Modelled from the spec: the uniform density at one point, `1/(b-a)`
inside the support and `0` outside, vectorized elementwise by `pdf`. -/
def pdf1 (x : ℚ) (parameters : List ℚ) : ℚ :=
  if lower parameters ≤ x ∧ x ≤ upper parameters then
    1 / (upper parameters - lower parameters)
  else 0

/-- Modelled from the spec: elementwise uniform density. -/
def pdf (xx : List ℚ) (parameters : List ℚ) : List ℚ :=
  xx.map (fun x => pdf1 x parameters)

/-- Modelled from the spec: the uniform cumulative distribution at one
point, `(x-a)/(b-a)` clamped to `[0,1]`. -/
def cdf1 (x : ℚ) (parameters : List ℚ) : ℚ :=
  if x < lower parameters then 0
  else if upper parameters < x then 1
  else (x - lower parameters) / (upper parameters - lower parameters)

/-- Modelled from the spec: elementwise uniform cumulative
distribution. -/
def cdf (xx : List ℚ) (parameters : List ℚ) : List ℚ :=
  xx.map (fun x => cdf1 x parameters)

/-- Modelled from the spec: the uniform inverse cumulative distribution
at one probability, `a + p*(b-a)`; input outside `[0,1]` is
extrapolated, matching the documented permissiveness of `icdf`. -/
def icdf1 (p : ℚ) (parameters : List ℚ) : ℚ :=
  lower parameters + p * (upper parameters - lower parameters)

/-- Modelled from the spec: elementwise uniform inverse cumulative
distribution. -/
def icdf (xx : List ℚ) (parameters : List ℚ) : List ℚ :=
  xx.map (fun p => icdf1 p parameters)

end uniform

/-- `SUPPORTED_MARGINALS` of `utils.py`: the commented-out names are
not in the list. -/
def SUPPORTED_MARGINALS : List String := ["uniform"]

/-- The module objects `get_distribution_module` can bind. -/
inductive DistModule where
  | uniformModule
deriving Repr, DecidableEq

/-- `get_distribution_module` of `utils.py`: only the `"uniform"`
branch binds `distribution_module`; for any other string the final
`return distribution_module` raises `UnboundLocalError`. -/
def get_distribution_module (distribution : String) : Except PyErr DistModule :=
  if distribution = "uniform" then Except.ok DistModule.uniformModule
  else Except.error (PyErr.unboundLocal "distribution_module")

/-- `verify_distribution` of `utils.py`: raises `ValueError`
(`UnsupportedDistribution` in the spec taxonomy) when the name is not
in `SUPPORTED_MARGINALS`. -/
def verify_distribution (distribution : String) : Except PyErr Unit :=
  if distribution ∈ SUPPORTED_MARGINALS then Except.ok ()
  else Except.error (PyErr.unsupportedDistribution distribution)

/-- `get_distribution_bounds` of `utils.py`: looks the module up, then
returns `(module.lower(parameters), module.upper(parameters))`. -/
def get_distribution_bounds (distribution : String) (parameters : List ℚ) :
    Except PyErr (ℚ × ℚ) :=
  match get_distribution_module distribution with
  | Except.error e => Except.error e
  | Except.ok DistModule.uniformModule =>
      Except.ok (uniform.lower parameters, uniform.upper parameters)

/-- `verify_parameters` of `utils.py`: looks the module up, then
delegates to the module's own `verify_parameters`. -/
def verify_parameters (distribution : String) (parameters : List ℚ) :
    Except PyErr Unit :=
  match get_distribution_module distribution with
  | Except.error e => Except.error e
  | Except.ok DistModule.uniformModule => uniform.verify_parameters parameters

/-- `get_pdf_values(xx, distribution, parameters)` of `utils.py`
(its body, reached only when the call passes CPython's arity check). -/
def get_pdf_values (xx : List ℚ) (distribution : String)
    (parameters : List ℚ) : Except PyErr (List ℚ) :=
  match get_distribution_module distribution with
  | Except.error e => Except.error e
  | Except.ok DistModule.uniformModule => Except.ok (uniform.pdf xx parameters)

/-- `get_cdf_values(xx, distribution, parameters)` of `utils.py`
(its body, reached only when the call passes CPython's arity check). -/
def get_cdf_values (xx : List ℚ) (distribution : String)
    (parameters : List ℚ) : Except PyErr (List ℚ) :=
  match get_distribution_module distribution with
  | Except.error e => Except.error e
  | Except.ok DistModule.uniformModule => Except.ok (uniform.cdf xx parameters)

/-- `get_icdf_values(xx, distribution, parameters)` of `utils.py`
(its body, reached only when the call passes CPython's arity check). -/
def get_icdf_values (xx : List ℚ) (distribution : String)
    (parameters : List ℚ) : Except PyErr (List ℚ) :=
  match get_distribution_module distribution with
  | Except.error e => Except.error e
  | Except.ok DistModule.uniformModule => Except.ok (uniform.icdf xx parameters)

/-- CPython positional call of a three-parameter function taking
`(xx : array, distribution : str, parameters : array)`: a call whose
argument list does not have exactly three entries raises `TypeError`
("takes 3 positional arguments but n were given") before the body
runs; with three arguments of the expected kinds the body `f` runs. -/
def pyCallVals (fname : String)
    (f : List ℚ → String → List ℚ → Except PyErr (List ℚ))
    (args : List PyVal) : Except PyErr (List ℚ) :=
  match args with
  | [PyVal.arr xx, PyVal.str d, PyVal.arr ps] => f xx d ps
  | _ =>
      if args.length = 3 then Except.error PyErr.badArgument
      else Except.error (PyErr.typeErrorArity fname 3 args.length)

/-- A positional call of `get_pdf_values`. -/
def get_pdf_values_call (args : List PyVal) : Except PyErr (List ℚ) :=
  pyCallVals "get_pdf_values" get_pdf_values args

/-- A positional call of `get_cdf_values`. -/
def get_cdf_values_call (args : List PyVal) : Except PyErr (List ℚ) :=
  pyCallVals "get_cdf_values" get_cdf_values args

/-- A positional call of `get_icdf_values`. -/
def get_icdf_values_call (args : List PyVal) : Except PyErr (List ℚ) :=
  pyCallVals "get_icdf_values" get_icdf_values args

/-- The lazily created NumPy pseudo-random generator attached to a
marginal: the seed it was created with (`none` means system entropy)
and how many uniform variates have been drawn so far.  The variates
themselves are abstracted by a stream argument where sampling is
modelled, since the NumPy generator is outside the sources. -/
structure Generator where
  seed : Option Nat
  pos : Nat
deriving Repr, DecidableEq

/-- The `UnivDist` dataclass of `univariate_distribution.py`, after
`__post_init__` has run: `lower` and `upper` are the derived bounds,
`rng` is the `_rng` field (`none` until the first sampling call). -/
structure UnivDist where
  distribution : String
  parameters : List ℚ
  name : Option String
  description : Option String
  lower : ℚ
  upper : ℚ
  rng_seed : Option Nat
  rng : Option Generator
deriving Repr, DecidableEq

/-- Python's `str.lower()` as applied by `__post_init__` to the
distribution name: lower-case each character.  (The same function as
`String.toLower`, but written over the character list by structural
recursion so that proofs can evaluate it.) -/
def pyLower (s : String) : String := String.mk (s.data.map Char.toLower)

/-- Construction of a `UnivDist` (`__init__` plus `__post_init__`):
lower-case the distribution name, convert the parameters to an array,
verify the distribution, verify the parameters, derive the bounds.
Each verification raises out of the constructor, so no object exists
on any error path. -/
def UnivDist.make (distribution : String) (parameters : List ℚ)
    (name : Option String) (description : Option String)
    (rng_seed : Option Nat) : Except PyErr UnivDist :=
  let distribution := pyLower distribution
  match verify_distribution distribution with
  | Except.error e => Except.error e
  | Except.ok _ =>
    match verify_parameters distribution parameters with
    | Except.error e => Except.error e
    | Except.ok _ =>
      match get_distribution_bounds distribution parameters with
      | Except.error e => Except.error e
      | Except.ok bounds =>
          Except.ok
            { distribution := distribution
              parameters := parameters
              name := name
              description := description
              lower := bounds.1
              upper := bounds.2
              rng_seed := rng_seed
              rng := none }

/-- `UnivDist.pdf`: converts the input to an array and calls
`get_pdf_values(xx, self.distribution, self.parameters, self.lower,
self.upper)` — five positional arguments. -/
def UnivDist.pdf (m : UnivDist) (xx : List ℚ) : Except PyErr (List ℚ) :=
  get_pdf_values_call
    [PyVal.arr xx, PyVal.str m.distribution, PyVal.arr m.parameters,
     PyVal.num m.lower, PyVal.num m.upper]

/-- `UnivDist.cdf`: converts the input to an array and calls
`get_cdf_values(xx, self.distribution, self.parameters, self.lower,
self.upper)` — five positional arguments. -/
def UnivDist.cdf (m : UnivDist) (xx : List ℚ) : Except PyErr (List ℚ) :=
  get_cdf_values_call
    [PyVal.arr xx, PyVal.str m.distribution, PyVal.arr m.parameters,
     PyVal.num m.lower, PyVal.num m.upper]

/-- `UnivDist.icdf`: converts the input to an array and calls
`get_icdf_values(xx, self.distribution, self.parameters, self.lower,
self.upper)` — five positional arguments. -/
def UnivDist.icdf (m : UnivDist) (xx : List ℚ) : Except PyErr (List ℚ) :=
  get_icdf_values_call
    [PyVal.arr xx, PyVal.str m.distribution, PyVal.arr m.parameters,
     PyVal.num m.lower, PyVal.num m.upper]

/-- A Python object passed as the `other` argument of
`transform_sample`: either a `UnivDist` instance or anything else. -/
inductive PyObject where
  | univDist (m : UnivDist)
  | otherObj (descr : String)
deriving Repr, DecidableEq

/-- Whether a Python object is a `UnivDist` instance. -/
def PyObject.isUnivDist : PyObject → Bool
  | PyObject.univDist _ => true
  | PyObject.otherObj _ => false

/-- `UnivDist.transform_sample`: raises `TypeError`
("Other instance must be of UnivariateType!") unless `other` is a
`UnivDist`; then computes `xx_trans = self.cdf(xx)` and calls
`get_icdf_values(xx_trans, other.distribution, other.parameters,
other.lower, other.upper)` — five positional arguments. -/
def UnivDist.transform_sample (m : UnivDist) (xx : List ℚ)
    (other : PyObject) : Except PyErr (List ℚ) :=
  match other with
  | PyObject.otherObj _ => Except.error PyErr.typeMismatch
  | PyObject.univDist o =>
    match m.cdf xx with
    | Except.error e => Except.error e
    | Except.ok xx_trans =>
        get_icdf_values_call
          [PyVal.arr xx_trans, PyVal.str o.distribution,
           PyVal.arr o.parameters, PyVal.num o.lower, PyVal.num o.upper]

/-- `UnivDist.get_sample`: if `_rng` is `None`, create a generator from
`rng_seed` (lazy initialization) and attach it; draw `sample_size`
uniform variates, advancing the stream; pass them to
`get_icdf_values(xx, self.distribution, self.parameters, self.lower,
self.upper)` — five positional arguments.  The numbers produced by the
NumPy generator are outside the sources and are abstracted by
`stream seed i`, the i-th variate of the generator created with
`seed`; the mutation of `_rng` is returned as a post-state. -/
def UnivDist.get_sample (stream : Option Nat → Nat → ℚ) (m : UnivDist)
    (sample_size : Nat) : Except PyErr (List ℚ) × UnivDist :=
  let rng :=
    match m.rng with
    | none => { seed := m.rng_seed, pos := 0 : Generator }
    | some g => g
  let xx := (List.range sample_size).map (fun i => stream rng.seed (rng.pos + i))
  let rng2 := { seed := rng.seed, pos := rng.pos + sample_size : Generator }
  (get_icdf_values_call
     [PyVal.arr xx, PyVal.str m.distribution, PyVal.arr m.parameters,
      PyVal.num m.lower, PyVal.num m.upper],
   { m with rng := some rng2 })

/-- A Python `Optional[str]` field value. -/
def optStrVal : Option String → PyVal
  | none => PyVal.pyNone
  | some s => PyVal.str s

/-- A Python `Optional[int]` field value. -/
def optNatVal : Option Nat → PyVal
  | none => PyVal.pyNone
  | some n => PyVal.num n

/-- The `_rng` field value: `None`, or a `Generator` object identified
by an identity tag (NumPy `Generator` defines no `__eq__`, so two
distinct objects never compare equal; generators are never shared
between marginals). -/
def rngVal : Option Generator → Nat → PyVal
  | none, _ => PyVal.pyNone
  | some _, tag => PyVal.rngObj tag

/-- The tuple of fields that the `@dataclass(frozen=True)` decorator
generates `__eq__` and `__hash__` over, in declaration order; all
eight fields have `compare=True` (the default), `_rng` included. -/
def UnivDist.fieldTuple (a : UnivDist) (rngTag : Nat) : List PyVal :=
  [PyVal.str a.distribution, PyVal.arr a.parameters, optStrVal a.name,
   optStrVal a.description, PyVal.num a.lower, PyVal.num a.upper,
   optNatVal a.rng_seed, rngVal a.rng rngTag]

/-- Python `==` on two field values that are distinct objects (the
identity shortcut of tuple comparison does not apply).  Comparing two
NumPy arrays is elementwise; taking the truth value of the resulting
array raises `ValueError` unless it has exactly one element.  All
other field kinds compare structurally (`rngObj` tags model object
identity). -/
def pyEq : PyVal → PyVal → Except PyErr Bool
  | PyVal.arr xs, PyVal.arr ys =>
      if xs.length = 1 ∧ ys.length = 1 then Except.ok (decide (xs = ys))
      else Except.error PyErr.valueErrorAmbiguous
  | a, b => Except.ok (decide (a = b))

/-- Python tuple equality: elementwise `==`, stopping at the first
unequal pair; an exception from an element comparison propagates. -/
def tupleEq : List PyVal → List PyVal → Except PyErr Bool
  | [], [] => Except.ok true
  | a :: as, b :: bs =>
    match pyEq a b with
    | Except.error e => Except.error e
    | Except.ok true => tupleEq as bs
    | Except.ok false => Except.ok false
  | _, _ => Except.ok false

/-- The `__eq__` generated by `@dataclass(frozen=True)` on `UnivDist`,
for two distinct instances: compare the field tuples elementwise.
Distinct identity tags are assigned to the two `_rng` fields because a
generator is never shared between two marginals. -/
def UnivDist.dataclassEq (a b : UnivDist) : Except PyErr Bool :=
  tupleEq (a.fieldTuple 0) (b.fieldTuple 1)

/-- Python `hash` of one field value: `numpy.ndarray` sets `__hash__`
to `None`, so hashing the parameters array raises `TypeError`
(unhashable type); every other field kind is hashable, and its hash is
represented by the value itself (equal values have equal hashes). -/
def pyHash1 : PyVal → Except PyErr PyVal
  | PyVal.arr _ => Except.error (PyErr.unhashableType "numpy.ndarray")
  | v => Except.ok v

/-- The `__hash__` generated by `@dataclass(frozen=True, eq=True)` on
`UnivDist`: the hash of the tuple of fields, which hashes each field in
order. -/
def UnivDist.dataclassHash (a : UnivDist) : Except PyErr (List PyVal) :=
  (a.fieldTuple 0).mapM pyHash1

/-- The marginal produced by `UnivDist("uniform", [0, 1])`. -/
def u01 : UnivDist :=
  { distribution := "uniform", parameters := [0, 1], name := none,
    description := none, lower := 0, upper := 1, rng_seed := none,
    rng := none }

/-- A marginal identical to `u01` except that a sampling call has
lazily attached a generator and drawn one variate from it. -/
def u01sampled : UnivDist :=
  { u01 with rng := some { seed := none, pos := 1 } }

/-- Inversion of successful construction: a `UnivDist.make` call that
returns an object implies the (lower-cased) distribution is
`"uniform"`, the parameters passed validation, and the object is
exactly the record `__post_init__` builds. -/
theorem UnivDist.make_ok_inversion (d : String) (ps : List ℚ)
    (nm ds : Option String) (sd : Option Nat) (m : UnivDist)
    (h : UnivDist.make d ps nm ds sd = Except.ok m) :
    pyLower d = "uniform" ∧ ps.length = 2 ∧
      uniform.lower ps < uniform.upper ps ∧
      m = { distribution := pyLower d, parameters := ps, name := nm,
            description := ds, lower := uniform.lower ps,
            upper := uniform.upper ps, rng_seed := sd, rng := none } := by
  unfold UnivDist.make at h
  dsimp only [] at h
  split at h
  · exact Except.noConfusion h
  case _ u heq =>
    by_cases hmem : pyLower d ∈ SUPPORTED_MARGINALS
    · have hu : pyLower d = "uniform" := by
        simpa [SUPPORTED_MARGINALS] using hmem
      rw [hu] at h
      rw [show verify_parameters "uniform" ps =
            uniform.verify_parameters ps from rfl] at h
      unfold uniform.verify_parameters at h
      split_ifs at h with h1 h2
      rw [show get_distribution_bounds "uniform" ps =
            Except.ok (uniform.lower ps, uniform.upper ps) from rfl] at h
      dsimp only [] at h
      refine ⟨hu, Classical.not_not.mp h1, lt_of_not_le h2, ?_⟩
      rw [hu]
      exact ((Except.ok.injEq _ _).mp h).symm
    · unfold verify_distribution at heq
      rw [if_neg hmem] at heq
      exact Except.noConfusion heq

/-- Construction of the `"uniform"` marginal reduced past the
distribution check: it fails exactly when the family's parameter
validation fails, and otherwise yields the record built by
`__post_init__`. -/
theorem UnivDist.make_uniform_eq (ps : List ℚ) (nm ds : Option String)
    (sd : Option Nat) :
    UnivDist.make "uniform" ps nm ds sd =
      match uniform.verify_parameters ps with
      | Except.error e => Except.error e
      | Except.ok _ =>
          Except.ok { distribution := "uniform", parameters := ps, name := nm,
                      description := ds, lower := uniform.lower ps,
                      upper := uniform.upper ps, rng_seed := sd, rng := none } := by
  unfold UnivDist.make
  dsimp only []
  rw [show pyLower "uniform" = "uniform" from rfl]
  rw [show verify_distribution "uniform" = Except.ok () from rfl]
  dsimp only []
  rw [show verify_parameters "uniform" ps = uniform.verify_parameters ps from rfl]
  cases uniform.verify_parameters ps with
  | error e => rfl
  | ok u => rfl

/-- `UnivDist("uniform", [0, 1])` constructs successfully and yields
`u01`. -/
theorem UnivDist.make_u01 :
    UnivDist.make "uniform" [0, 1] none none none = Except.ok u01 := rfl

/-- Claim C1: the claim states that for every supported family the
Marginal's `cdf` and `icdf` are mutual inverses on the domain.  In the
code neither method ever returns a value: `UnivDist.cdf` and
`UnivDist.icdf` pass five positional arguments
`(xx, distribution, parameters, lower, upper)` to the three-parameter
functions `get_cdf_values` / `get_icdf_values` of `utils.py`, so every
call raises `TypeError` and the round trip is never computed. -/
theorem cdf_icdf_arity_bug :
    (∀ (m : UnivDist) (xx : List ℚ),
        m.cdf xx = Except.error (PyErr.typeErrorArity "get_cdf_values" 3 5))
  ∧ (∀ (m : UnivDist) (pp : List ℚ),
        m.icdf pp = Except.error (PyErr.typeErrorArity "get_icdf_values" 3 5)) :=
  ⟨fun _ _ => rfl, fun _ _ => rfl⟩

/-- Claim C2: the claim states that the uniform marginal with
parameters `[0, 1]` has bounds `(0, 1)` and that `pdf(0.5) = 1`,
`cdf(0.5) = 0.5`, `icdf(0.5) = 0.5`.  Construction does succeed with
bounds `(0, 1)`, but the three evaluations raise `TypeError` instead
of returning values, because each method passes five positional
arguments to a three-parameter function of `utils.py`. -/
theorem uniform01_scenario_bug :
    UnivDist.make "uniform" [0, 1] none none none = Except.ok u01
  ∧ (u01.lower, u01.upper) = ((0 : ℚ), (1 : ℚ))
  ∧ u01.pdf [1/2] = Except.error (PyErr.typeErrorArity "get_pdf_values" 3 5)
  ∧ u01.cdf [1/2] = Except.error (PyErr.typeErrorArity "get_cdf_values" 3 5)
  ∧ u01.icdf [1/2] = Except.error (PyErr.typeErrorArity "get_icdf_values" 3 5) :=
  ⟨UnivDist.make_u01, rfl, rfl, rfl, rfl⟩

/-- Claim C3: the claim states that `get_sample(n)` returns an array
of length `n` produced by drawing `n` variates from the lazily created
generator and mapping them through `icdf`.  The lazy creation and the
stream advance do happen (the post-state holds a generator whose
position advanced by `n`), but no array is ever returned: the final
call passes five positional arguments to the three-parameter
`get_icdf_values`, so every `get_sample` call raises `TypeError`, for
any marginal, any sample size and any underlying uniform stream. -/
theorem get_sample_arity_bug :
    ∀ (stream : Option Nat → Nat → ℚ) (m : UnivDist) (n : Nat),
      (UnivDist.get_sample stream m n).1 =
          Except.error (PyErr.typeErrorArity "get_icdf_values" 3 5)
        ∧ ((UnivDist.get_sample stream m n).2).rng.isSome = true :=
  fun _ _ _ => ⟨rfl, rfl⟩

/-- Claim C4: the claim states that `transform_sample(xx, other)`
equals `other.icdf(this.cdf(xx))` and is the identity for equal
marginals.  In the code the inner `self.cdf(xx)` call raises
`TypeError` (five positional arguments to the three-parameter
`get_cdf_values`), so the transform raises on every input whenever
`other` is a marginal — the identity mapping included. -/
theorem transform_sample_arity_bug :
    ∀ (m o : UnivDist) (xx : List ℚ),
      m.transform_sample xx (PyObject.univDist o) =
        Except.error (PyErr.typeErrorArity "get_cdf_values" 3 5) :=
  fun _ _ _ => rfl

/-- Claim C5: constructing a marginal with wrong parameter arity or
with constraint-violating values (lower ≥ upper) always fails with
`InvalidParameters` and never clamps; and a successful construction
implies the stored parameters are exactly the given ones and satisfy
the family constraints, so no partially-valid instance ever exists. -/
theorem make_invalid_parameters_rejected :
    (∀ (ps : List ℚ) (nm ds : Option String) (sd : Option Nat),
        ps.length ≠ 2 →
        UnivDist.make "uniform" ps nm ds sd =
          Except.error
            (PyErr.invalidParameters "uniform takes exactly 2 parameters"))
  ∧ (∀ (ps : List ℚ) (nm ds : Option String) (sd : Option Nat),
        ps.length = 2 → uniform.upper ps ≤ uniform.lower ps →
        UnivDist.make "uniform" ps nm ds sd =
          Except.error
            (PyErr.invalidParameters "lower bound must be below upper bound"))
  ∧ (∀ (d : String) (ps : List ℚ) (nm ds : Option String) (sd : Option Nat)
        (m : UnivDist),
        UnivDist.make d ps nm ds sd = Except.ok m →
        m.parameters = ps ∧ ps.length = 2 ∧
          uniform.lower ps < uniform.upper ps) := by
  refine ⟨?_, ?_, ?_⟩
  · intro ps nm ds sd hlen
    rw [UnivDist.make_uniform_eq]
    unfold uniform.verify_parameters
    rw [if_pos hlen]
  · intro ps nm ds sd hlen hord
    rw [UnivDist.make_uniform_eq]
    unfold uniform.verify_parameters
    rw [if_neg (fun h => h hlen), if_pos hord]
  · intro d ps nm ds sd m h
    rcases UnivDist.make_ok_inversion d ps nm ds sd m h with ⟨_, h2, h3, hm⟩
    exact ⟨by rw [hm], h2, h3⟩

/-- Witness for claim C5: a three-parameter list is rejected for wrong
arity, `[2, 1]` is rejected for infeasible ordering, and the
successful `[0, 1]` construction stores exactly those parameters. -/
theorem make_invalid_parameters_rejected_witness :
    UnivDist.make "uniform" [0, 1, 2] none none none =
      Except.error (PyErr.invalidParameters "uniform takes exactly 2 parameters")
  ∧ UnivDist.make "uniform" [2, 1] none none none =
      Except.error (PyErr.invalidParameters "lower bound must be below upper bound")
  ∧ (u01.parameters = [0, 1] ∧ ([0, 1] : List ℚ).length = 2 ∧
      uniform.lower [0, 1] < uniform.upper [0, 1]) :=
  ⟨make_invalid_parameters_rejected.1 [0, 1, 2] none none none (by decide),
   make_invalid_parameters_rejected.2.1 [2, 1] none none none (by decide)
     (by decide),
   make_invalid_parameters_rejected.2.2 "uniform" [0, 1] none none none u01
     UnivDist.make_u01⟩

/-- Claim C6: constructing a marginal whose distribution name, after
case normalization, is not in the fixed supported set always fails
with `UnsupportedDistribution`, and the supported set contains exactly
`"uniform"`. -/
theorem make_unsupported_distribution_rejected :
    (∀ (d : String) (ps : List ℚ) (nm ds : Option String) (sd : Option Nat),
        pyLower d ∉ SUPPORTED_MARGINALS →
        UnivDist.make d ps nm ds sd =
          Except.error (PyErr.unsupportedDistribution (pyLower d)))
  ∧ SUPPORTED_MARGINALS = ["uniform"] := by
  refine ⟨?_, rfl⟩
  intro d ps nm ds sd hd
  unfold UnivDist.make
  dsimp only []
  rw [show verify_distribution (pyLower d) =
        Except.error (PyErr.unsupportedDistribution (pyLower d)) from by
      unfold verify_distribution
      rw [if_neg hd]]

/-- Witness for claim C6: `"normal"` is not supported, so construction
fails with `UnsupportedDistribution`. -/
theorem make_unsupported_distribution_rejected_witness :
    UnivDist.make "normal" [0, 1] none none none =
      Except.error (PyErr.unsupportedDistribution "normal") :=
  make_unsupported_distribution_rejected.1 "normal" [0, 1] none none none
    (by decide)

/-- Claim C7: `transform_sample(xx, other)` fails with `TypeMismatch`
exactly when `other` is not a `UnivDist` instance; whenever `other` is
a marginal the call gets past the type check (whatever it does later
is not the type-mismatch failure). -/
theorem transform_sample_type_guard :
    ∀ (m : UnivDist) (xx : List ℚ) (other : PyObject),
      m.transform_sample xx other = Except.error PyErr.typeMismatch
        ↔ other.isUnivDist = false := by
  intro m xx other
  cases other with
  | univDist o =>
      rw [show m.transform_sample xx (PyObject.univDist o) =
            Except.error (PyErr.typeErrorArity "get_cdf_values" 3 5) from rfl]
      simp [PyObject.isUnivDist]
  | otherObj s =>
      simp [UnivDist.transform_sample, PyObject.isUnivDist]

/-- Claim C8: a successfully constructed marginal stores the
lower-cased form of the distribution name given at construction, and
construction with any case variant of a supported name behaves exactly
as with the lower-case name — in particular `"UNIFORM"` succeeds —
because normalization happens before the supported-set check. -/
theorem distribution_name_normalized :
    (∀ (d : String) (ps : List ℚ) (nm ds : Option String) (sd : Option Nat)
        (m : UnivDist),
        UnivDist.make d ps nm ds sd = Except.ok m →
        m.distribution = pyLower d)
  ∧ (∀ (d : String) (ps : List ℚ) (nm ds : Option String) (sd : Option Nat),
        pyLower d = "uniform" →
        UnivDist.make d ps nm ds sd = UnivDist.make "uniform" ps nm ds sd)
  ∧ UnivDist.make "UNIFORM" [0, 1] none none none = Except.ok u01 := by
  refine ⟨?_, ?_, rfl⟩
  · intro d ps nm ds sd m h
    rcases UnivDist.make_ok_inversion d ps nm ds sd m h with ⟨hu, _, _, hm⟩
    rw [hm, hu]
  · intro d ps nm ds sd hd
    unfold UnivDist.make
    dsimp only []
    rw [hd, show pyLower "uniform" = "uniform" from rfl]

/-- Witness for claim C8: the `"UNIFORM"` construction stores
`"uniform"`, and the `"Uniform"` construction coincides with the
lower-case one. -/
theorem distribution_name_normalized_witness :
    u01.distribution = pyLower "UNIFORM"
  ∧ UnivDist.make "Uniform" [0, 1] none none none =
      UnivDist.make "uniform" [0, 1] none none none :=
  ⟨distribution_name_normalized.1 "UNIFORM" [0, 1] none none none u01
     distribution_name_normalized.2.2,
   distribution_name_normalized.2.1 "Uniform" [0, 1] none none none
     (by decide)⟩

/-- Claim C9: the claim states that equality and hashing of marginals
ignore the lazily attached generator, so two marginals with identical
distribution, parameters, name and description compare equal and hash
equal whether or not either has sampled.  In the code the
dataclass-generated `__eq__` compares the field tuples, and comparing
the NumPy `parameters` arrays of two distinct instances raises
`ValueError` (ambiguous truth value) before `_rng` is even reached;
the dataclass-generated `__hash__` hashes the parameters array and
raises `TypeError` (unhashable type).  Neither ever returns a
value. -/
theorem dataclass_eq_hash_raise :
    UnivDist.dataclassEq u01 u01sampled = Except.error PyErr.valueErrorAmbiguous
  ∧ UnivDist.dataclassEq u01 u01 = Except.error PyErr.valueErrorAmbiguous
  ∧ UnivDist.dataclassHash u01 =
      Except.error (PyErr.unhashableType "numpy.ndarray")
  ∧ UnivDist.dataclassHash u01sampled =
      Except.error (PyErr.unhashableType "numpy.ndarray") :=
  ⟨rfl, rfl, rfl, rfl⟩

/-- Claim C10: for every name in the supported set the module lookup
of `get_distribution_module` succeeds (the branch that leaves
`distribution_module` unbound is not taken), and every successfully
constructed marginal carries a distribution for which the lookup
succeeds — so the unbound-variable branch is unreachable from any
marginal method. -/
theorem distribution_module_lookup_total :
    (∀ d : String, d ∈ SUPPORTED_MARGINALS →
        get_distribution_module d = Except.ok DistModule.uniformModule)
  ∧ (∀ (d : String) (ps : List ℚ) (nm ds : Option String) (sd : Option Nat)
        (m : UnivDist),
        UnivDist.make d ps nm ds sd = Except.ok m →
        get_distribution_module m.distribution =
          Except.ok DistModule.uniformModule) := by
  have h1 : ∀ d : String, d ∈ SUPPORTED_MARGINALS →
      get_distribution_module d = Except.ok DistModule.uniformModule := by
    intro d hd
    have hu : d = "uniform" := by simpa [SUPPORTED_MARGINALS] using hd
    rw [hu]
    exact rfl
  refine ⟨h1, ?_⟩
  intro d ps nm ds sd m h
  rcases UnivDist.make_ok_inversion d ps nm ds sd m h with ⟨hu, _, _, hm⟩
  rw [hm]
  dsimp only []
  rw [hu]
  exact rfl

/-- Witness for claim C10: the lookup succeeds for `"uniform"` and for
the distribution stored in the constructed marginal `u01`. -/
theorem distribution_module_lookup_total_witness :
    get_distribution_module "uniform" = Except.ok DistModule.uniformModule
  ∧ get_distribution_module u01.distribution =
      Except.ok DistModule.uniformModule :=
  ⟨distribution_module_lookup_total.1 "uniform" (by decide),
   distribution_module_lookup_total.2 "uniform" [0, 1] none none none u01
     UnivDist.make_u01⟩

end UQTestFuns
